import Mathlib

/-!
Shallow embedding of the extraction engine in src/data/scraper.py.

Python dynamic values parsed from JSON are modelled by the inductive `Json`
(mutual with `JsonList`/`JsonObj` so that all recursive functions are
structural and reduce inside the kernel).  Python floats are modelled as
exact rationals: every numeric literal that the engine can produce comes
from a decimal token, and all comparisons made by the claims are between
such decimal values, where the rational model and IEEE shortest-roundtrip
repr agree.  Python exceptions are modelled with `Except`: `PyErr` covers
the uncaught `AttributeError` / `TypeError` that the dynamic attribute
accesses and float coercions can raise.

HTML documents (the BeautifulSoup DocumentTree collaborator) are modelled
by `Node`/`NodeList`: element nodes with a tag, an attribute list and
children, plus raw text nodes.  `find_all`, `select`, `select_one`,
`find`, `get_text` and `find_parent` are embedded as document-order
traversals, matching the soupsieve/bs4 semantics used by the code.
-/

namespace Scraper

attribute [local semireducible] Rat.add Rat.mul Rat.inv Rat.sub

mutual
/-- JSON / Python values produced by `json.loads`.  Integer tokens parse to
Python `int`, tokens with a fraction or exponent to Python `float`. -/
inductive Json where
  | null : Json
  | bool (b : Bool) : Json
  | int (n : Int) : Json
  | float (q : ℚ) : Json
  | str (s : String) : Json
  | arr (elems : JsonList) : Json
  | obj (fields : JsonObj) : Json
inductive JsonList where
  | nil : JsonList
  | cons (hd : Json) (tl : JsonList) : JsonList
inductive JsonObj where
  | nil : JsonObj
  | cons (key : String) (val : Json) (tl : JsonObj) : JsonObj
end

deriving instance DecidableEq for Json
deriving instance DecidableEq for JsonList
deriving instance DecidableEq for JsonObj

def JsonList.toList : JsonList → List Json
  | .nil => []
  | .cons h t => h :: t.toList

def JsonList.ofList : List Json → JsonList
  | [] => .nil
  | h :: t => .cons h (JsonList.ofList t)

def JsonObj.keysList : JsonObj → List String
  | .nil => []
  | .cons k _ t => k :: t.keysList

/-- First binding of a key (keys are unique: the parser builds objects with
update-in-place semantics like a CPython dict). -/
def JsonObj.findVal : JsonObj → String → Option Json
  | .nil, _ => none
  | .cons k v tl, key => if k = key then some v else tl.findVal key

/-- Python truthiness of a JSON value. -/
def Json.truthy : Json → Bool
  | .null => false
  | .bool b => b
  | .int n => n != 0
  | .float q => q != 0
  | .str s => s != ""
  | .arr .nil => false
  | .arr _ => true
  | .obj .nil => false
  | .obj _ => true

/-- Python `a or b` on JSON values. -/
def pyOr (a b : Json) : Json := if a.truthy then a else b

def Json.isObj : Json → Bool
  | .obj _ => true
  | _ => false

/-- `k in parsed` for a mapping; `False` on non-mappings (the code only asks
this after an `isinstance(parsed, dict)` check). -/
def jHasKey (j : Json) (k : String) : Bool :=
  match j with
  | .obj fs => (fs.findVal k).isSome
  | _ => false

/-- `parsed[k]` where the caller has established `k in parsed`. -/
def jGetD (j : Json) (k : String) : Json :=
  match j with
  | .obj fs => (fs.findVal k).getD .null
  | _ => .null

/-- Uncaught Python exceptions that the engine can raise. -/
inductive PyErr where
  | attributeError
  | typeError
deriving DecidableEq

/-- `payload.get(k)`:  `AttributeError` when the receiver is not a dict. -/
def dictGetE (j : Json) (k : String) : Except PyErr Json :=
  match j with
  | .obj fs => .ok ((fs.findVal k).getD .null)
  | _ => .error .attributeError

/-- `payload.get(k, default)`. -/
def dictGetDE (j : Json) (k : String) (d : Json) : Except PyErr Json :=
  match j with
  | .obj fs => .ok ((fs.findVal k).getD d)
  | _ => .error .attributeError

/-- Python iteration over a value: lists yield elements, strings yield
one-character strings, dicts yield their keys; other values raise
`TypeError`. -/
def pyIterE : Json → Except PyErr (List Json)
  | .arr el => .ok el.toList
  | .str s => .ok (s.data.map (fun c => Json.str (String.singleton c)))
  | .obj fs => .ok (fs.keysList.map Json.str)
  | _ => .error .typeError

def pyIterOpt (j : Json) : Option (List Json) := (pyIterE j).toOption

/-! ### Python `float(...)` on strings, modelled over exact decimals -/

def wsCh (c : Char) : Bool :=
  c = ' ' || c = '\t' || c = '\n' || c = '\r' || c = '\x0b' || c = '\x0c'

def stripChars (cs : List Char) : List Char :=
  ((cs.dropWhile wsCh).reverse.dropWhile wsCh).reverse

def digitsVal (cs : List Char) : Nat :=
  cs.foldl (fun a c => a * 10 + (c.toNat - 48)) 0

def floatExpDigits (base : ℚ) (neg : Bool) (cs : List Char) : Option ℚ :=
  if cs.isEmpty || !(cs.all Char.isDigit) then none
  else
    let e := digitsVal cs
    some (if neg then base / 10 ^ e else base * 10 ^ e)

def floatExpPart (base : ℚ) (cs : List Char) : Option ℚ :=
  match cs with
  | [] => some base
  | 'e' :: r => match r with
    | '+' :: r2 => floatExpDigits base false r2
    | '-' :: r2 => floatExpDigits base true r2
    | _ => floatExpDigits base false r
  | 'E' :: r => match r with
    | '+' :: r2 => floatExpDigits base false r2
    | '-' :: r2 => floatExpDigits base true r2
    | _ => floatExpDigits base false r
  | _ => none

def floatUnsigned (cs : List Char) : Option ℚ :=
  let ip := cs.takeWhile Char.isDigit
  let r1 := cs.dropWhile Char.isDigit
  match r1 with
  | '.' :: r2 =>
    let fd := r2.takeWhile Char.isDigit
    if ip.isEmpty && fd.isEmpty then none
    else floatExpPart ((digitsVal ip : ℚ) + (digitsVal fd : ℚ) / 10 ^ fd.length)
      (r2.dropWhile Char.isDigit)
  | _ => if ip.isEmpty then none else floatExpPart (digitsVal ip : ℚ) r1

/-- Python `float(s)` restricted to plain decimal syntax (optional sign,
digits, one optional dot, optional exponent); the engine only ever feeds it
digit/dot strings, where this is exact. -/
def pyFloatStr (s : String) : Option ℚ :=
  match stripChars s.data with
  | '+' :: rest => floatUnsigned rest
  | '-' :: rest => (floatUnsigned rest).map Neg.neg
  | cs => floatUnsigned cs

/-- `float(point)` on a JSON value, `none` when it raises
`TypeError`/`ValueError` (both are caught by `normalise_chart`). -/
def pointFloat : Json → Option ℚ
  | .int n => some (n : ℚ)
  | .float q => some q
  | .bool b => some (if b then 1 else 0)
  | .str s => pyFloatStr s
  | _ => none

/-! ### `json.loads` (fuelled recursive-descent parser) -/

def jsonWs (c : Char) : Bool := c = ' ' || c = '\t' || c = '\n' || c = '\r'

def skipWs (cs : List Char) : List Char := cs.dropWhile jsonWs

def hexVal (c : Char) : Option Nat :=
  if '0' ≤ c && c ≤ '9' then some (c.toNat - 48)
  else if 'a' ≤ c && c ≤ 'f' then some (c.toNat - 87)
  else if 'A' ≤ c && c ≤ 'F' then some (c.toNat - 55)
  else none

def escMap : Char → Option Char
  | '"' => some '"'
  | '\\' => some '\\'
  | '/' => some '/'
  | 'b' => some '\x08'
  | 'f' => some '\x0c'
  | 'n' => some '\n'
  | 'r' => some '\r'
  | 't' => some '\t'
  | _ => none

/-- Body of a JSON string literal, after the opening quote. -/
def parseStrBody : List Char → Option (List Char × List Char)
  | [] => none
  | '"' :: rest => some ([], rest)
  | '\\' :: 'u' :: a :: b :: c :: d :: rest =>
    match hexVal a, hexVal b, hexVal c, hexVal d with
    | some ha, some hb, some hc, some hd =>
      (parseStrBody rest).map
        (fun p => (Char.ofNat (((ha * 16 + hb) * 16 + hc) * 16 + hd) :: p.1, p.2))
    | _, _, _, _ => none
  | '\\' :: e :: rest =>
    match escMap e with
    | some c => (parseStrBody rest).map (fun p => (c :: p.1, p.2))
    | none => none
  | c :: rest =>
    if c.toNat < 32 then none
    else (parseStrBody rest).map (fun p => (c :: p.1, p.2))

def applySign (neg : Bool) (q : ℚ) : ℚ := if neg then -q else q

def numExpPart (neg : Bool) (ip fd : List Char) (cs : List Char) :
    Option (Json × List Char) :=
  let (eneg, cs1) := match cs with
    | '+' :: r => (false, r)
    | '-' :: r => (true, r)
    | _ => (false, cs)
  let ed := cs1.takeWhile Char.isDigit
  if ed.isEmpty then none
  else
    let base : ℚ := (digitsVal ip : ℚ) + (digitsVal fd : ℚ) / 10 ^ fd.length
    let e := digitsVal ed
    some (Json.float (applySign neg (if eneg then base / 10 ^ e else base * 10 ^ e)),
      cs1.dropWhile Char.isDigit)

def numTail (neg : Bool) (ip fd : List Char) (isFloat : Bool) (rest : List Char) :
    Option (Json × List Char) :=
  match rest with
  | 'e' :: r => numExpPart neg ip fd r
  | 'E' :: r => numExpPart neg ip fd r
  | _ =>
    if isFloat then
      some (Json.float (applySign neg
        ((digitsVal ip : ℚ) + (digitsVal fd : ℚ) / 10 ^ fd.length)), rest)
    else
      some (Json.int (if neg then -(digitsVal ip : ℤ) else (digitsVal ip : ℤ)), rest)

/-- JSON number token: `-?(0|[1-9][0-9]*)(\.[0-9]+)?([eE][+-]?[0-9]+)?`. -/
def parseNumber (cs : List Char) : Option (Json × List Char) :=
  let (neg, cs1) := match cs with
    | '-' :: rest => (true, rest)
    | _ => (false, cs)
  match cs1 with
  | c :: _ =>
    if c.isDigit then
      let ip := if c = '0' then [c] else cs1.takeWhile Char.isDigit
      let r1 := if c = '0' then cs1.tail else cs1.dropWhile Char.isDigit
      match r1 with
      | '.' :: r2 =>
        let fd := r2.takeWhile Char.isDigit
        if fd.isEmpty then none
        else numTail neg ip fd true (r2.dropWhile Char.isDigit)
      | _ => numTail neg ip [] false r1
    else none
  | [] => none

/-- Insert with CPython-dict semantics: an existing key keeps its position
and gets the new value, a new key is appended. -/
def objUpdate : JsonObj → String → Json → JsonObj
  | .nil, k, v => .cons k v .nil
  | .cons k0 v0 tl, k, v =>
    if k0 = k then .cons k0 v tl else .cons k0 v0 (objUpdate tl k v)

def buildObj : JsonObj → List (String × Json) → JsonObj
  | o, [] => o
  | o, (k, v) :: rest => buildObj (objUpdate o k v) rest

mutual
def parseVal : Nat → List Char → Option (Json × List Char)
  | 0, _ => none
  | _ + 1, [] => none
  | fuel + 1, c :: rest =>
    if c = '\x7b' then parseObjStart fuel (skipWs rest)
    else if c = '[' then parseArrStart fuel (skipWs rest)
    else if c = '"' then (parseStrBody rest).map (fun p => (Json.str (String.mk p.1), p.2))
    else match c :: rest with
      | 't' :: 'r' :: 'u' :: 'e' :: r => some (Json.bool true, r)
      | 'f' :: 'a' :: 'l' :: 's' :: 'e' :: r => some (Json.bool false, r)
      | 'n' :: 'u' :: 'l' :: 'l' :: r => some (Json.null, r)
      | cs => parseNumber cs

def parseArrStart : Nat → List Char → Option (Json × List Char)
  | 0, _ => none
  | fuel + 1, cs =>
    match cs with
    | ']' :: r => some (Json.arr .nil, r)
    | _ => match parseArrItems fuel cs with
      | some (items, r) => some (Json.arr (JsonList.ofList items), r)
      | none => none

def parseArrItems : Nat → List Char → Option (List Json × List Char)
  | 0, _ => none
  | fuel + 1, cs =>
    match parseVal fuel cs with
    | none => none
    | some (v, r1) =>
      match skipWs r1 with
      | ',' :: r3 =>
        match parseArrItems fuel (skipWs r3) with
        | some (items, r4) => some (v :: items, r4)
        | none => none
      | ']' :: r3 => some ([v], r3)
      | _ => none

def parseObjStart : Nat → List Char → Option (Json × List Char)
  | 0, _ => none
  | fuel + 1, cs =>
    match cs with
    | '\x7d' :: r => some (Json.obj .nil, r)
    | _ => match parseObjItems fuel cs with
      | some (ms, r) => some (Json.obj (buildObj .nil ms), r)
      | none => none

def parseObjItems : Nat → List Char → Option (List (String × Json) × List Char)
  | 0, _ => none
  | fuel + 1, cs =>
    match cs with
    | '"' :: r =>
      match parseStrBody r with
      | none => none
      | some (k, r1) =>
        match skipWs r1 with
        | ':' :: r3 =>
          match parseVal fuel (skipWs r3) with
          | none => none
          | some (v, r4) =>
            match skipWs r4 with
            | ',' :: r6 =>
              match parseObjItems fuel (skipWs r6) with
              | some (ms, r7) => some ((String.mk k, v) :: ms, r7)
              | none => none
            | '\x7d' :: r6 => some ([(String.mk k, v)], r6)
            | _ => none
        | _ => none
    | _ => none
end

/-- `try_parse_json`: strip, reject empty, `json.loads` with full
consumption, `None` on any parse failure. -/
def tryParseJson (s : String) : Option Json :=
  let cs := stripChars s.data
  if cs.isEmpty then none
  else
    match parseVal (2 * cs.length + 8) cs with
    | some (v, r) => if (skipWs r).isEmpty then some v else none
    | none => none

/-! ### `json.dumps(..., ensure_ascii=False)` -/

def hexDigit (n : Nat) : Char :=
  if n < 10 then Char.ofNat (48 + n) else Char.ofNat (87 + n)

def escJsonChar (c : Char) : List Char :=
  if c = '"' then ['\\', '"']
  else if c = '\\' then ['\\', '\\']
  else if c = '\n' then ['\\', 'n']
  else if c = '\t' then ['\\', 't']
  else if c = '\r' then ['\\', 'r']
  else if c = '\x08' then ['\\', 'b']
  else if c = '\x0c' then ['\\', 'f']
  else if c.toNat < 32 then
    ['\\', 'u', '0', '0', hexDigit (c.toNat / 16), hexDigit (c.toNat % 16)]
  else [c]

def strLit (s : String) : String :=
  String.mk ('"' :: s.data.flatMap escJsonChar ++ ['"'])

def count2 : Nat → Nat
  | 0 => 0
  | n + 1 =>
    if (n + 1) % 2 = 0 then count2 ((n + 1) / 2) + 1 else 0
decreasing_by exact Nat.div_lt_self (Nat.succ_pos n) (by decide)

def count5 : Nat → Nat
  | 0 => 0
  | n + 1 =>
    if (n + 1) % 5 = 0 then count5 ((n + 1) / 5) + 1 else 0
decreasing_by exact Nat.div_lt_self (Nat.succ_pos n) (by decide)

/-- Python `repr` of a float whose exact value is a terminating decimal
(the only floats `json.loads` produces); shortest-roundtrip repr prints
exactly this minimal decimal expansion. -/
def floatRepr (q : ℚ) : String :=
  let sign := if q < 0 then "-" else ""
  let a := count2 q.den
  let b := count5 q.den
  let k := max a b
  let m := q.num.natAbs * 2 ^ (k - a) * 5 ^ (k - b)
  if k = 0 then sign ++ toString m ++ ".0"
  else
    let ds := toString m
    let pad := if ds.length ≤ k then String.mk (List.replicate (k + 1 - ds.length) '0') ++ ds else ds
    let cut := pad.length - k
    sign ++ String.mk (pad.data.take cut) ++ "." ++ String.mk (pad.data.drop cut)

mutual
def jsonDumps : Json → String
  | .null => "null"
  | .bool true => "true"
  | .bool false => "false"
  | .int n => toString n
  | .float q => floatRepr q
  | .str s => strLit s
  | .arr el => "[" ++ dumpsArr el ++ "]"
  | .obj fs => "\x7b" ++ dumpsObj fs ++ "\x7d"

def dumpsArr : JsonList → String
  | .nil => ""
  | .cons v .nil => jsonDumps v
  | .cons v (.cons w tl) => jsonDumps v ++ ", " ++ dumpsArr (.cons w tl)

def dumpsObj : JsonObj → String
  | .nil => ""
  | .cons k v .nil => strLit k ++ ": " ++ jsonDumps v
  | .cons k v (.cons k2 v2 tl) =>
    strLit k ++ ": " ++ jsonDumps v ++ ", " ++ dumpsObj (.cons k2 v2 tl)
end

/-! ### `parse_price` and `CURRENCY_REGEX` -/

/-- `CURRENCY_REGEX = (?P<currency>[₺€$£]|TRY|USD|EUR|GBP)\s?(?P<value>[\d.,]+)` -/
def currencyChar (c : Char) : Bool := c = '₺' || c = '€' || c = '$' || c = '£'

def matchCodeAt : List Char → Option (String × List Char)
  | 'T' :: 'R' :: 'Y' :: rest => some ("TRY", rest)
  | 'U' :: 'S' :: 'D' :: rest => some ("USD", rest)
  | 'E' :: 'U' :: 'R' :: rest => some ("EUR", rest)
  | 'G' :: 'B' :: 'P' :: rest => some ("GBP", rest)
  | _ => none

def matchCurrencyAt (cs : List Char) : Option (String × List Char) :=
  match cs with
  | c :: rest => if currencyChar c then some (String.singleton c, rest) else matchCodeAt cs
  | [] => none

def valChar (c : Char) : Bool := c.isDigit || c = '.' || c = ','

/-- `\s?(?P<value>[\d.,]+)` at a position: a greedy optional whitespace,
then a non-empty greedy run of digits, dots and commas (if the whitespace
is consumed but no value character follows, backtracking to the empty
whitespace also fails, because the whitespace is not a value character). -/
def matchValueAt (cs : List Char) : Option String :=
  match cs with
  | [] => none
  | c :: rest =>
    if wsCh c then
      let run := rest.takeWhile valChar
      if run.isEmpty then none else some (String.mk run)
    else
      let run := cs.takeWhile valChar
      if run.isEmpty then none else some (String.mk run)

/-- `CURRENCY_REGEX.search`: leftmost position where a currency token
directly followed by (optionally one whitespace and) a numeric run
matches; the currency alternatives have pairwise distinct first
characters, so no further backtracking arises. -/
def regexSearch : List Char → Option (String × String)
  | [] => none
  | c :: rest =>
    match matchCurrencyAt (c :: rest) with
    | some (cur, after) =>
      match matchValueAt after with
      | some v => some (cur, v)
      | none => regexSearch rest
    | none => regexSearch rest

/-- `value.replace(".", "").replace(",", ".")` (character-wise, which is
what `str.replace` does for one-character patterns). -/
def normaliseValue (v : String) : String :=
  String.mk ((v.data.filter (fun c => c ≠ '.')).map (fun c => if c = ',' then '.' else c))

/-- `parse_price(text)`. -/
def parsePrice (text : String) : Option ℚ × Option String :=
  match regexSearch text.data with
  | none => (none, none)
  | some (cur, v) =>
    match pyFloatStr (normaliseValue v) with
    | some q => (some q, some cur)
    | none => (none, some cur)

/-! ### The document model (BeautifulSoup collaborator) -/

mutual
/-- A parsed HTML node: an element (tag, attributes, children) or raw text.
Multi-valued `class` attributes are stored as their whitespace-separated
source text. -/
inductive Node where
  | text (s : String) : Node
  | elem (tag : String) (attrs : List (String × String)) (children : NodeList) : Node
inductive NodeList where
  | nil : NodeList
  | cons (hd : Node) (tl : NodeList) : NodeList
end

deriving instance DecidableEq for Node
deriving instance DecidableEq for NodeList

def tagOf : Node → String
  | .text _ => ""
  | .elem t _ _ => t

/-- `node.get(key)` attribute lookup. -/
def attrGet (n : Node) (k : String) : Option String :=
  match n with
  | .text _ => none
  | .elem _ attrs _ => (attrs.find? (fun a => a.1 == k)).map (fun a => a.2)

/-- `node.has_attr(key)`. -/
def hasAttrB (n : Node) (k : String) : Bool := (attrGet n k).isSome

def Node.childrenL : Node → NodeList
  | .text _ => .nil
  | .elem _ _ cs => cs

/-- All element descendants of the nodes of a list, in document (pre-)order:
the traversal behind `find_all` and CSS selection. -/
def elemsL : NodeList → List Node
  | .nil => []
  | .cons (.text _) tl => elemsL tl
  | .cons (.elem t a cs) tl => Node.elem t a cs :: (elemsL cs ++ elemsL tl)

/-- Element descendants of one node (the node itself excluded). -/
def elemsN (n : Node) : List Node := elemsL n.childrenL

/-- All text pieces of a node list in document order (`soup.strings`). -/
def textsL : NodeList → List String
  | .nil => []
  | .cons (.text s) tl => s :: textsL tl
  | .cons (.elem _ _ cs) tl => textsL cs ++ textsL tl

def textsOf (n : Node) : List String :=
  match n with
  | .text s => [s]
  | .elem _ _ cs => textsL cs

def strJoin (l : List String) : String := l.foldl (fun a s => a ++ s) ""

def joinSep (sep : String) : List String → String
  | [] => ""
  | [s] => s
  | s :: rest => s ++ sep ++ joinSep sep rest

def pyStrip (s : String) : String := String.mk (stripChars s.data)

/-- `node.get_text()`: concatenation of all contained strings.  (The code
computes `script.string or script.get_text()`; whenever `.string` is a
non-`None` value it is the unique contained string, which equals
`get_text()`, and when it is `None` or empty the code falls back to
`get_text()`, so the disjunction always equals `get_text()`.) -/
def getText (n : Node) : String := strJoin (textsOf n)

/-- `node.get_text(strip=True)`: strip each string, drop the empty ones,
concatenate. -/
def getTextStrip (n : Node) : String :=
  strJoin (((textsOf n).map pyStrip).filter (fun s => s != ""))

/-- `node.get_text(sep, strip=True)`. -/
def getTextSep (sep : String) (n : Node) : String :=
  joinSep sep (((textsOf n).map pyStrip).filter (fun s => s != ""))

def splitWsAux : List Char → List Char → List String
  | acc, [] => if acc.isEmpty then [] else [String.mk acc.reverse]
  | acc, c :: rest =>
    if wsCh c then
      if acc.isEmpty then splitWsAux [] rest
      else String.mk acc.reverse :: splitWsAux [] rest
    else splitWsAux (c :: acc) rest

/-- The whitespace-separated tokens of a `class` attribute. -/
def classTokens (s : String) : List String := splitWsAux [] s.data

/-- CSS `.tok` class matching. -/
def hasClass (n : Node) (tok : String) : Bool :=
  (classTokens ((attrGet n "class").getD "")).contains tok

/-- First descendant of `n` satisfying `p`, in document order:
`select_one` / `find` on a candidate node. -/
def selectFirstD (n : Node) (p : Node → Bool) : Option Node := (elemsN n).find? p

/-! ### `normalise_chart` -/

/-- A canonical chart series.  `label`, `labels` and `color` hold whatever
JSON values the payload supplied (Python does not coerce them). -/
structure ChartDataset where
  label : Json
  values : List ℚ
  labels : Json
  color : Json
deriving DecidableEq

/-- `[float(point) for point in data_points]`: the first point that raises
`ValueError`/`TypeError` aborts the comprehension. -/
def coerceAll : List Json → Option (List ℚ)
  | [] => some []
  | p :: rest =>
    match pointFloat p with
    | none => none
    | some v => (coerceAll rest).map (fun vs => v :: vs)

/-- Python `dataset.get("label") or dataset.get("name") or "Veri Seti"`. -/
def seriesLabel (d : Json) : Json :=
  pyOr (jGetD d "label") (pyOr (jGetD d "name") (.str "Veri Seti"))

/-- Python `dataset.get("data") or dataset.get("values") or []`. -/
def seriesPoints (d : Json) : Json :=
  pyOr (jGetD d "data") (pyOr (jGetD d "values") (.arr .nil))

/-- Python `dataset.get("backgroundColor") or dataset.get("color")`. -/
def seriesColor (d : Json) : Json :=
  pyOr (jGetD d "backgroundColor") (jGetD d "color")

/-- One iteration of the `for dataset in raw_datasets` loop: `AttributeError`
when the entry is not a dict (the `.get` calls come before the `try`),
`none` when the points fail to coerce (the caught branch), otherwise the
emitted dataset carrying the shared `labels`. -/
def seriesStep (labelsJ : Json) (d : Json) : Except PyErr (Option ChartDataset) :=
  if d.isObj then
    match pyIterOpt (seriesPoints d) with
    | none => .ok none
    | some pts =>
      match coerceAll pts with
      | none => .ok none
      | some vals => .ok (some ⟨seriesLabel d, vals, labelsJ, seriesColor d⟩)
  else .error .attributeError

def normaliseLoop (labelsJ : Json) : List Json → Except PyErr (List ChartDataset)
  | [] => .ok []
  | d :: rest =>
    match seriesStep labelsJ d with
    | .error e => .error e
    | .ok none => normaliseLoop labelsJ rest
    | .ok (some c) => (normaliseLoop labelsJ rest).map (fun l => c :: l)

/-- `payload.get(k, default)` for a receiver already known to be a dict. -/
def jGetDefault (j : Json) (k : String) (d : Json) : Json :=
  match j with
  | .obj fs => (fs.findVal k).getD d
  | _ => d

/-- `normalise_chart(payload)`.  A non-dict payload raises `AttributeError`
at the very first `payload.get("title")`; on a dict every `.get` succeeds,
so the remaining failure points are iterating `raw_datasets` (uncaught
`TypeError`) and the per-series loop. -/
def normaliseChart (payload : Json) : Except PyErr (Json × List ChartDataset) :=
  if payload.isObj then
    let labelsJ := jGetDefault payload "labels" (.arr .nil)
    match pyIterE (pyOr (jGetD payload "datasets") (pyOr (jGetD payload "series") (.arr .nil))) with
    | .error e => .error e
    | .ok items =>
      match normaliseLoop labelsJ items with
      | .error e => .error e
      | .ok ds => .ok (pyOr (jGetD payload "title") (jGetD payload "name"), ds)
  else .error .attributeError

/-! ### `extract_chart_data` -/

/-- The chart-shape dispatch of `extract_chart_data` (lines 125-134): the
`elif` on `"data"` fires whenever `"data"` holds a mapping, and yields a
payload only when that mapping has both `"labels"` and `"datasets"` — the
direct shape is not consulted in that case. -/
def chartShape (parsed : Json) : Option Json :=
  if parsed.isObj then
    if jHasKey parsed "chart" then some (jGetD parsed "chart")
    else if jHasKey parsed "data" && (jGetD parsed "data").isObj then
      if jHasKey (jGetD parsed "data") "labels" && jHasKey (jGetD parsed "data") "datasets" then
        some (jGetD parsed "data")
      else none
    else if jHasKey parsed "labels" && jHasKey parsed "datasets" then some parsed
    else none
  else none

def pyLower (s : String) : String := String.mk (s.data.map Char.toLower)

/-- `(script.get("type") or "").lower()` allow-list test (line 116-118). -/
def scriptAllowedType (n : Node) : Bool :=
  let t := pyLower ((attrGet n "type").getD "")
  t == "" || t == "application/json" || t == "application/ld+json"

/-- One iteration of the `for script in soup.find_all("script")` loop:
`.ok none` means the node is passed over and scanning continues. -/
def scriptStep (n : Node) : Except PyErr (Option (Json × List ChartDataset × String)) :=
  if !scriptAllowedType n then .ok none
  else if getText n == "" then .ok none
  else
    match tryParseJson (getText n) with
    | none => .ok none
    | some parsed =>
      if !parsed.truthy then .ok none
      else
        match chartShape parsed with
        | none => .ok none
        | some cp =>
          if !cp.truthy then .ok none
          else
            match normaliseChart cp with
            | .error e => .error e
            | .ok (title, ds) =>
              if ds.isEmpty then .ok none
              else .ok (some (title, ds, jsonDumps cp))

def chartLoop : List Node → Except PyErr (Json × List ChartDataset × Option String)
  | [] => .ok (.null, [], none)
  | s :: rest =>
    match scriptStep s with
    | .error e => .error e
    | .ok none => chartLoop rest
    | .ok (some (t, ds, raw)) => .ok (t, ds, some raw)

def findScripts (doc : NodeList) : List Node :=
  (elemsL doc).filter (fun n => tagOf n == "script")

/-- `extract_chart_data(soup)`. -/
def extractChartData (doc : NodeList) :
    Except PyErr (Json × List ChartDataset × Option String) :=
  chartLoop (findScripts doc)

/-! ### `extract_products` -/

structure ProductCard where
  name : Option String
  price : Option ℚ
  currency : Option String
  description : Option String
  image_url : Option String
deriving DecidableEq

/-- One candidate node of the selector group
`"[data-product], .product-card, article.product, li.product"`. -/
def prodMatch (n : Node) : Bool :=
  hasAttrB n "data-product" || hasClass n "product-card" ||
    (tagOf n == "article" && hasClass n "product") ||
    (tagOf n == "li" && hasClass n "product")

/-- CSS selection over a node list: soupsieve walks the document in
document order and keeps the nodes matching any alternative of the
selector group. -/
def selectL (p : Node → Bool) : NodeList → List Node
  | .nil => []
  | .cons (.text _) tl => selectL p tl
  | .cons (.elem t a cs) tl =>
    (if p (.elem t a cs) then [Node.elem t a cs] else []) ++ (selectL p cs ++ selectL p tl)

def productCandidates (doc : NodeList) : List Node := selectL prodMatch doc

def headingTag (m : Node) : Bool :=
  tagOf m == "h1" || tagOf m == "h2" || tagOf m == "h3" || tagOf m == "h4"

/-- Name fallback: `node.select_one("[itemprop='name']") or
node.find(["h1","h2","h3","h4"])`, then `get_text(strip=True)`. -/
def nameFallback (n : Node) : Option String :=
  match selectFirstD n (fun m => attrGet m "itemprop" == some "name") with
  | some el => some (getTextStrip el)
  | none =>
    match selectFirstD n headingTag with
    | some el => some (getTextStrip el)
    | none => none

/-- The resolved `product_name` (lines 150-157): `none` is Python `None`,
`some ""` an empty extracted text; a non-empty `data-name` short-circuits. -/
def resolvedName (n : Node) : Option String :=
  match attrGet n "data-name" with
  | some s => if s ≠ "" then some s else nameFallback n
  | none => nameFallback n

def strTruthy : Option String → Option String
  | some s => if s = "" then none else some s
  | none => none

def priceSelB (m : Node) : Bool :=
  attrGet m "itemprop" == some "price" || hasClass m "price" || hasClass m "amount"

/-- The truthy `price_candidate` finally given to `parse_price` (lines
162-166 and the `if price_candidate` guard of line 172): falsy attribute
values fall through to the element search, and a falsy final candidate
skips parsing. -/
def priceText (n : Node) : Option String :=
  match strTruthy (attrGet n "data-price") with
  | some s => some s
  | none =>
    match strTruthy (attrGet n "data-amount") with
    | some s => some s
    | none =>
      match selectFirstD n priceSelB with
      | some el => strTruthy (some (getTextSep " " el))
      | none => none

def descSelB (m : Node) : Bool :=
  attrGet m "itemprop" == some "description" || hasClass m "description" || tagOf m == "p"

/-- The ProductCard built for one candidate node (lines 150-182). -/
def mkCard (n : Node) : ProductCard :=
  let pc : Option ℚ × Option String :=
    match priceText n with
    | none => (none, none)
    | some s => parsePrice s
  ProductCard.mk (resolvedName n) pc.1 pc.2
    ((selectFirstD n descSelB).map getTextStrip)
    (match selectFirstD n (fun m => tagOf m == "img") with
     | none => none
     | some img => attrGet img "src")

/-- The `for node in soup.select(...)` loop with its `seen_names` set. -/
def productsLoop (seen : List String) : List Node → List ProductCard
  | [] => []
  | n :: rest =>
    match resolvedName n with
    | some s =>
      if s ≠ "" then
        if seen.contains s then productsLoop seen rest
        else mkCard n :: productsLoop (s :: seen) rest
      else mkCard n :: productsLoop seen rest
    | none => mkCard n :: productsLoop seen rest

/-- `extract_products(soup)`. -/
def extractProducts (doc : NodeList) : List ProductCard :=
  productsLoop [] (productCandidates doc)

/-! ### `extract_images` -/

/-- Every `img` element paired with its immediate parent, in document
order (`find_all("img")` plus `img.find_parent()`); the parent of a
top-level node is the soup object itself, modelled as an attribute-less
`[document]` element. -/
def imgPairsL (parent : Node) : NodeList → List (Node × Node)
  | .nil => []
  | .cons (.text _) tl => imgPairsL parent tl
  | .cons (.elem t a cs) tl =>
    (if t == "img" then [(Node.elem t a cs, parent)] else []) ++
      (imgPairsL (Node.elem t a cs) cs ++ imgPairsL parent tl)

def docNode (doc : NodeList) : Node := .elem "[document]" [] doc

def imgPairs (doc : NodeList) : List (Node × Node) := imgPairsL (docNode doc) doc

/-- The body of the `for img in soup.find_all("img")` loop: a falsy `src`
is skipped, the context is `"product"` exactly when the immediate parent
has the `data-product` attribute. -/
def imagesLoop : List (Node × Node) → List (String × Option String × Option String)
  | [] => []
  | (img, parent) :: rest =>
    match attrGet img "src" with
    | none => imagesLoop rest
    | some src =>
      if src = "" then imagesLoop rest
      else
        (src, attrGet img "alt",
          if hasAttrB parent "data-product" then some "product" else none) :: imagesLoop rest

/-- `extract_images(soup)`. -/
def extractImages (doc : NodeList) : List (String × Option String × Option String) :=
  imagesLoop (imgPairs doc)

/-! ### `scrape` -/

structure ScrapeResult where
  url : String
  title : Option String
  chart_title : Json
  datasets : List ChartDataset
  products : List ProductCard
  images : List (String × Option String × Option String)
  raw_payload : Option String
deriving DecidableEq

/-- Failure of one `scrape` call: the typed `ScraperError` raised by the
document-level emptiness check, or an uncaught Python exception. -/
inductive ScrapeFailure where
  | scraperError (msg : String)
  | pyError (e : PyErr)
deriving DecidableEq

def emptyMsg : String := "Sayfada analiz edilecek grafik veya ürün bulunamadı."

/-- `scrape(url, html_override)` after the document has been parsed (the
fetch and the HTML parse are external collaborators). -/
def scrape (url : String) (doc : NodeList) : Except ScrapeFailure ScrapeResult :=
  let pageTitle := ((elemsL doc).find? (fun n => tagOf n == "title")).map getTextStrip
  match extractChartData doc with
  | .error e => .error (.pyError e)
  | .ok (chartTitle, datasets, rawChart) =>
    let products := extractProducts doc
    let images := extractImages doc
    if datasets.isEmpty && products.isEmpty then .error (.scraperError emptyMsg)
    else .ok (ScrapeResult.mk url pageTitle chartTitle datasets products images rawChart)

/-! ### Helper lemmas -/

theorem coerceAll_none {pts : List Json} {p : Json} (hp : p ∈ pts)
    (hf : pointFloat p = none) : coerceAll pts = none := by
  induction pts with
  | nil => cases hp
  | cons q rest ih =>
    rcases List.mem_cons.mp hp with h | h
    · subst h; simp [coerceAll, hf]
    · cases hq : pointFloat q with
      | none => simp [coerceAll, hq]
      | some v => simp [coerceAll, hq, ih h]

theorem coerceAll_some {pts : List Json} (h : ∀ p ∈ pts, (pointFloat p).isSome = true) :
    ∃ vals, coerceAll pts = some vals ∧ vals.length = pts.length := by
  induction pts with
  | nil => exact ⟨[], rfl, rfl⟩
  | cons q rest ih =>
    obtain ⟨v, hv⟩ := Option.isSome_iff_exists.mp (h q (List.mem_cons_self q rest))
    obtain ⟨vals, hc, hl⟩ := ih (fun p hp => h p (List.mem_cons_of_mem q hp))
    exact ⟨v :: vals, by simp [coerceAll, hv, hc], by simp [hl]⟩

theorem seriesStep_labels {labelsJ d : Json} {c : ChartDataset}
    (h : seriesStep labelsJ d = .ok (some c)) : c.labels = labelsJ := by
  unfold seriesStep at h
  split at h
  · split at h
    · simp at h
    · split at h
      · simp at h
      · simp only [Except.ok.injEq, Option.some.injEq] at h
        subst h
        rfl
  · simp at h

theorem normaliseLoop_labels {labelsJ : Json} :
    ∀ {items : List Json} {ds : List ChartDataset},
      normaliseLoop labelsJ items = .ok ds → ∀ c ∈ ds, c.labels = labelsJ := by
  intro items
  induction items with
  | nil => intro ds h c hc; cases h; cases hc
  | cons d rest ih =>
    intro ds h c hc
    unfold normaliseLoop at h
    cases hs : seriesStep labelsJ d with
    | error e => rw [hs] at h; cases h
    | ok o =>
      cases o with
      | none => rw [hs] at h; exact ih h c hc
      | some c0 =>
        rw [hs] at h
        cases hr : normaliseLoop labelsJ rest with
        | error e => rw [hr] at h; cases h
        | ok l =>
          rw [hr] at h
          injection h with h'
          subst h'
          rcases List.mem_cons.mp hc with h | h
          · subst h; exact seriesStep_labels hs
          · exact ih hr c h

theorem scriptStep_some_inv {s : Node} {t : Json} {ds : List ChartDataset} {raw : String}
    (h : scriptStep s = .ok (some (t, ds, raw))) :
    ∃ parsed cp, tryParseJson (getText s) = some parsed ∧ parsed.truthy = true ∧
      chartShape parsed = some cp ∧ cp.truthy = true ∧
      normaliseChart cp = .ok (t, ds) ∧ raw = jsonDumps cp ∧ ds ≠ [] := by
  unfold scriptStep at h
  split at h
  · simp at h
  split at h
  · simp at h
  split at h
  · simp at h
  next parsed hparsed =>
  split at h
  · simp at h
  next htruthy =>
  split at h
  · simp at h
  next cp hcp =>
  split at h
  · simp at h
  next hcptruthy =>
  split at h
  · simp at h
  next title ds' hnorm =>
  split at h
  · simp at h
  next hne =>
  simp only [Except.ok.injEq, Option.some.injEq, Prod.mk.injEq] at h
  obtain ⟨h1, h2, h3⟩ := h
  subst h1
  subst h2
  subst h3
  exact ⟨parsed, cp, hparsed, by simpa using htruthy, hcp, by simpa using hcptruthy,
    hnorm, rfl, by simpa [List.isEmpty_iff] using hne⟩

theorem chartLoop_skip {s : Node} {rest : List Node} (h : scriptStep s = .ok none) :
    chartLoop (s :: rest) = chartLoop rest := by
  simp [chartLoop, h]

theorem chartLoop_skip_append {pre l : List Node}
    (h : ∀ x ∈ pre, scriptStep x = .ok none) : chartLoop (pre ++ l) = chartLoop l := by
  induction pre with
  | nil => rfl
  | cons s rest ih =>
    rw [List.cons_append, chartLoop_skip (h s (List.mem_cons_self s rest))]
    exact ih (fun x hx => h x (List.mem_cons_of_mem s hx))

theorem chartLoop_cases {ss : List Node} {t : Json} {ds : List ChartDataset}
    {r : Option String} (h : chartLoop ss = .ok (t, ds, r)) :
    (t = .null ∧ ds = [] ∧ r = none) ∨
      ∃ s ∈ ss, ∃ raw, scriptStep s = .ok (some (t, ds, raw)) ∧ r = some raw := by
  induction ss with
  | nil =>
    left
    simp only [chartLoop, Except.ok.injEq, Prod.mk.injEq] at h
    exact ⟨h.1.symm, h.2.1.symm, h.2.2.symm⟩
  | cons s rest ih =>
    unfold chartLoop at h
    cases hs : scriptStep s with
    | error e => rw [hs] at h; cases h
    | ok o =>
      cases o with
      | none =>
        rw [hs] at h
        rcases ih h with hbase | ⟨s', hmem, raw, hstep, hr⟩
        · exact Or.inl hbase
        · exact Or.inr ⟨s', List.mem_cons_of_mem s hmem, raw, hstep, hr⟩
      | some v =>
        obtain ⟨t0, ds0, raw0⟩ := v
        rw [hs] at h
        simp only [Except.ok.injEq, Prod.mk.injEq] at h
        obtain ⟨h1, h2, h3⟩ := h
        subst h1
        subst h2
        exact Or.inr ⟨s, List.mem_cons_self s rest, raw0, hs, h3.symm⟩

theorem chartLoop_raw_iff {ss : List Node} {t : Json} {ds : List ChartDataset}
    {r : Option String} (h : chartLoop ss = .ok (t, ds, r)) :
    r.isSome = true ↔ ds ≠ [] := by
  rcases chartLoop_cases h with ⟨_, hds, hr⟩ | ⟨s, _, raw, hstep, hr⟩
  · subst hds; subst hr; simp
  · subst hr
    obtain ⟨_, _, _, _, _, _, _, _, hne⟩ := scriptStep_some_inv hstep
    simp [hne]

theorem scrape_ok_inv {url : String} {doc : NodeList} {res : ScrapeResult}
    (h : scrape url doc = .ok res) :
    ∃ t r, extractChartData doc = .ok (t, res.datasets, r) ∧ res.raw_payload = r ∧
      res.products = extractProducts doc := by
  unfold scrape at h
  split at h
  · simp at h
  next t ds r hE =>
  dsimp only at h
  split at h
  · simp at h
  · simp only [Except.ok.injEq] at h
    subst h
    exact ⟨t, r, hE, rfl, rfl⟩

theorem tryParseJson_empty : tryParseJson "" = none := rfl

theorem scriptStep_eval {s : Node} {parsed cp t : Json} {ds : List ChartDataset}
    (hallow : scriptAllowedType s = true)
    (hparse : tryParseJson (getText s) = some parsed)
    (htr : parsed.truthy = true)
    (hcp : chartShape parsed = some cp)
    (hcptr : cp.truthy = true)
    (hnorm : normaliseChart cp = .ok (t, ds)) :
    scriptStep s = if ds.isEmpty then .ok none else .ok (some (t, ds, jsonDumps cp)) := by
  have hgt : (getText s == "") = false := by
    cases hg : getText s == ""
    · rfl
    · exfalso
      rw [eq_of_beq hg, tryParseJson_empty] at hparse
      cases hparse
  simp [scriptStep, hallow, hgt, hparse, htr, hcp, hcptr, hnorm]

theorem selectL_eq_filter (p : Node → Bool) :
    (ns : NodeList) → selectL p ns = (elemsL ns).filter p
  | .nil => rfl
  | .cons (.text s) tl => by
    simpa [selectL, elemsL] using selectL_eq_filter p tl
  | .cons (.elem t a cs) tl => by
    cases hp : p (.elem t a cs) <;>
      simp [selectL, elemsL, hp, List.filter_append, List.filter_cons,
        selectL_eq_filter p cs, selectL_eq_filter p tl]

/-- The per-image rule of §4.5, worded as the (amended) claim states it:
keep exactly the images with a non-empty source attribute, tag them
`"product"` exactly when the immediate structural parent carries the
product-marker attribute — no further ancestors are examined. -/
def imageSpecEntry (pr : Node × Node) : Option (String × Option String × Option String) :=
  match attrGet pr.1 "src" with
  | none => none
  | some src =>
    if src = "" then none
    else some (src, attrGet pr.1 "alt",
      if hasAttrB pr.2 "data-product" then some "product" else none)

theorem imagesLoop_eq_filterMap :
    ∀ l : List (Node × Node), imagesLoop l = l.filterMap imageSpecEntry := by
  intro l
  induction l with
  | nil => rfl
  | cons pr rest ih =>
    obtain ⟨img, parent⟩ := pr
    cases hs : attrGet img "src" with
    | none => simp [imagesLoop, imageSpecEntry, hs, ih]
    | some src =>
      by_cases he : src = "" <;> simp [imagesLoop, imageSpecEntry, hs, he, ih]

/-! ### Concrete documents used by the counterexamples and witnesses -/

def nl : List Node → NodeList
  | [] => .nil
  | n :: rest => .cons n (nl rest)

def scriptNode (s : String) : Node := .elem "script" [] (.cons (.text s) .nil)

/-- A script whose JSON has a mapping-valued `"data"` key without
`"labels"`/`"datasets"`, next to a directly chart-shaped top level. -/
def chartS1 : String :=
  "\x7b\"data\": \x7b\"x\": 1\x7d, \"labels\": [\"a\"], \"datasets\": [\x7b\"data\": [1]\x7d]\x7d"

def labelsA : Json := .arr (.cons (.str "a") .nil)

def chartJ1 : Json :=
  .obj (.cons "data" (.obj (.cons "x" (.int 1) .nil))
    (.cons "labels" labelsA
      (.cons "datasets"
        (.arr (.cons (.obj (.cons "data" (.arr (.cons (.int 1) .nil)) .nil)) .nil))
        .nil)))

def chartDocC1 : NodeList := nl [scriptNode chartS1]

/-- First scanned node: chart-shaped but with a non-numeric point, so it
normalises to zero datasets. -/
def c1ScriptA : Node :=
  scriptNode "\x7b\"labels\": [\"a\"], \"datasets\": [\x7b\"data\": [\"x\"]\x7d]\x7d"

/-- Second scanned node: accepted `"chart"`-keyed payload. -/
def c1ScriptB : Node :=
  scriptNode "\x7b\"chart\": \x7b\"labels\": [\"b\"], \"datasets\": [\x7b\"data\": [2]\x7d]\x7d\x7d"

def labelsB : Json := .arr (.cons (.str "b") .nil)

/-- The `{"chart": "hello"}` script: its payload is truthy but not a
mapping, so `normalise_chart` calls `.get` on a string. -/
def crashDoc : NodeList := nl [scriptNode "\x7b\"chart\": \"hello\"\x7d"]

/-- Script for C8, with leading whitespace and a wrapper key, so that the
dumped payload differs both from the script text and from a dump of the
outer envelope. -/
def c8Script : Node :=
  scriptNode "  \x7b\"wrapper\": true, \"chart\": \x7b\"labels\": [\"a\"], \"datasets\": [\x7b\"data\": [1]\x7d]\x7d\x7d"

def c8Doc : NodeList := nl [c8Script]

def c8Chart : Json :=
  .obj (.cons "labels" labelsA
    (.cons "datasets"
      (.arr (.cons (.obj (.cons "data" (.arr (.cons (.int 1) .nil)) .nil)) .nil))
      .nil))

def c8Envelope : Json := .obj (.cons "wrapper" (.bool true) (.cons "chart" c8Chart .nil))

def c8Raw : String := "\x7b\"labels\": [\"a\"], \"datasets\": [\x7b\"data\": [1]\x7d]\x7d"

def c8DS : ChartDataset := ChartDataset.mk (.str "Veri Seti") [1] labelsA .null

/-! ### The claims -/

/-- C1 (counterexample): the claim's reading of the shape priority fails on
the code.  `chartJ1` has no `"chart"` key, its `"data"` key holds a mapping
without `"labels"`/`"datasets"`, and it directly contains both `"labels"`
and `"datasets"` with a payload normalising to one dataset — by the claim
the scanner should accept the mapping itself, but `extract_chart_data`
rejects the node (the `elif` on a mapping-valued `"data"` key shadows the
direct shape) and returns no datasets for the document. -/
theorem c1_counterexample :
    tryParseJson chartS1 = some chartJ1 ∧
    jHasKey chartJ1 "chart" = false ∧
    (jGetD chartJ1 "data").isObj = true ∧
    (jHasKey (jGetD chartJ1 "data") "labels" && jHasKey (jGetD chartJ1 "data") "datasets") = false ∧
    (jHasKey chartJ1 "labels" && jHasKey chartJ1 "datasets") = true ∧
    normaliseChart chartJ1 = .ok (.null, [ChartDataset.mk (.str "Veri Seti") [1] labelsA .null]) ∧
    chartShape chartJ1 = none ∧
    extractChartData chartDocC1 = .ok (.null, [], none) :=
  ⟨rfl, rfl, rfl, rfl, rfl, rfl, rfl, rfl⟩

/-- C1 (amended): the shape dispatch of `extract_chart_data` takes the
branches in strict priority — a `"chart"` key always wins; otherwise, a
mapping-valued `"data"` key claims the node and yields its mapping exactly
when that mapping has both `"labels"` and `"datasets"` (the direct shape is
not consulted); only when no mapping-valued `"data"` key exists does the
direct `"labels"`/`"datasets"` shape apply.  Per node, the accepted payload
is normalised: zero datasets means the node is passed over, at least one
dataset means the node is accepted.  Across nodes, the first script node
(in document order) whose step accepts determines the result and scanning
stops there; nodes that are passed over leave the scan unchanged. -/
theorem c1_shape_priority_first_wins :
    (∀ j : Json, j.isObj = true → jHasKey j "chart" = true →
      chartShape j = some (jGetD j "chart")) ∧
    (∀ j : Json, j.isObj = true → jHasKey j "chart" = false →
      jHasKey j "data" = true → (jGetD j "data").isObj = true →
      chartShape j =
        (if jHasKey (jGetD j "data") "labels" && jHasKey (jGetD j "data") "datasets" then
          some (jGetD j "data") else none)) ∧
    (∀ j : Json, j.isObj = true → jHasKey j "chart" = false →
      (jHasKey j "data" && (jGetD j "data").isObj) = false →
      chartShape j = (if jHasKey j "labels" && jHasKey j "datasets" then some j else none)) ∧
    (∀ (s : Node) (parsed cp t : Json) (ds : List ChartDataset),
      scriptAllowedType s = true → tryParseJson (getText s) = some parsed →
      parsed.truthy = true → chartShape parsed = some cp → cp.truthy = true →
      normaliseChart cp = .ok (t, ds) →
      (ds = [] → scriptStep s = .ok none) ∧
      (ds ≠ [] → scriptStep s = .ok (some (t, ds, jsonDumps cp)))) ∧
    (∀ (pre : List Node) (s : Node) (rest : List Node) (t : Json)
        (ds : List ChartDataset) (raw : String),
      (∀ x ∈ pre, scriptStep x = .ok none) →
      scriptStep s = .ok (some (t, ds, raw)) →
      chartLoop (pre ++ s :: rest) = .ok (t, ds, some raw)) := by
  refine ⟨?_, ?_, ?_, ?_, ?_⟩
  · intro j hobj hchart
    simp [chartShape, hobj, hchart]
  · intro j hobj hchart hdata hdobj
    simp [chartShape, hobj, hchart, hdata, hdobj]
  · intro j hobj hchart hnd
    simp [chartShape, hobj, hchart, hnd]
  · intro s parsed cp t ds hallow hparse htr hcp hcptr hnorm
    rw [scriptStep_eval hallow hparse htr hcp hcptr hnorm]
    constructor
    · intro h; simp [h]
    · intro h; simp [h]
  · intro pre s rest t ds raw hpre hstep
    rw [chartLoop_skip_append hpre]
    simp [chartLoop, hstep]

/-- C1 (witness): the first node normalises to zero datasets and is passed
over, the second accepts a `"chart"`-keyed payload with one dataset and
determines the result. -/
theorem c1_witness :
    chartLoop [c1ScriptA, c1ScriptB] =
      .ok (.null, [ChartDataset.mk (.str "Veri Seti") [2] labelsB .null],
        some "\x7b\"labels\": [\"b\"], \"datasets\": [\x7b\"data\": [2]\x7d]\x7d") :=
  c1_shape_priority_first_wins.2.2.2.2 [c1ScriptA] c1ScriptB [] _ _ _
    (by
      intro x hx
      rw [List.mem_singleton.mp hx]
      rfl)
    rfl

/-- C2: one series entry of `normalise_chart`: a single point failing
`float` coercion makes the series contribute nothing, while a series whose
points all coerce contributes exactly one dataset with exactly as many
values as points, carrying the chart's shared top-level `labels` value. -/
theorem c2_series_all_or_nothing :
    (∀ (labelsJ d : Json) (rest : List Json) (pts : List Json) (p : Json),
      d.isObj = true → pyIterOpt (seriesPoints d) = some pts →
      p ∈ pts → pointFloat p = none →
      normaliseLoop labelsJ (d :: rest) = normaliseLoop labelsJ rest) ∧
    (∀ (labelsJ d : Json) (rest : List Json) (pts : List Json),
      d.isObj = true → pyIterOpt (seriesPoints d) = some pts →
      (∀ p ∈ pts, (pointFloat p).isSome = true) →
      ∃ vals, vals.length = pts.length ∧
        normaliseLoop labelsJ (d :: rest) =
          (normaliseLoop labelsJ rest).map
            (fun l => ChartDataset.mk (seriesLabel d) vals labelsJ (seriesColor d) :: l)) ∧
    (∀ (payload t : Json) (ds : List ChartDataset),
      normaliseChart payload = .ok (t, ds) →
      ∀ c ∈ ds, c.labels = jGetDefault payload "labels" (.arr .nil)) := by
  refine ⟨?_, ?_, ?_⟩
  · intro labelsJ d rest pts p hobj hiter hp hf
    simp [normaliseLoop, seriesStep, hobj, hiter, coerceAll_none hp hf]
  · intro labelsJ d rest pts hobj hiter hall
    obtain ⟨vals, hc, hl⟩ := coerceAll_some hall
    refine ⟨vals, hl, ?_⟩
    simp [normaliseLoop, seriesStep, hobj, hiter, hc]
  · intro payload t ds h c hc
    unfold normaliseChart at h
    split at h
    · dsimp only at h
      split at h
      · simp at h
      · split at h
        · simp at h
        · next ds0 hloop =>
          simp only [Except.ok.injEq, Prod.mk.injEq] at h
          obtain ⟨-, h2⟩ := h
          subst h2
          exact normaliseLoop_labels hloop c hc
    · simp at h

/-- C2 (witness): a series with the single non-numeric point `"x"` yields
nothing, applied to the one-element loop. -/
theorem c2_witness :
    normaliseLoop labelsA [Json.obj (.cons "data" (.arr (.cons (.str "x") .nil)) .nil)] =
      normaliseLoop labelsA [] :=
  c2_series_all_or_nothing.1 labelsA
    (Json.obj (.cons "data" (.arr (.cons (.str "x") .nil)) .nil)) []
    [Json.str "x"] (Json.str "x") rfl rfl (by simp) rfl

/-- C3: the `seen_names` deduplication of `extract_products`: a candidate
whose non-empty resolved name was already emitted is dropped entirely, a
fresh non-empty name is recorded and emits a card, and a candidate with an
absent or empty resolved name always emits a card without touching the
set; in particular, of two candidates with the same non-empty name only
the first (in candidate order) emits a card. -/
theorem c3_dedup_by_name :
    (∀ (seen : List String) (n : Node) (rest : List Node) (nm : String),
      resolvedName n = some nm → nm ≠ "" → seen.contains nm = true →
      productsLoop seen (n :: rest) = productsLoop seen rest) ∧
    (∀ (seen : List String) (n : Node) (rest : List Node) (nm : String),
      resolvedName n = some nm → nm ≠ "" → seen.contains nm = false →
      productsLoop seen (n :: rest) = mkCard n :: productsLoop (nm :: seen) rest) ∧
    (∀ (seen : List String) (n : Node) (rest : List Node),
      resolvedName n = none ∨ resolvedName n = some "" →
      productsLoop seen (n :: rest) = mkCard n :: productsLoop seen rest) ∧
    (∀ (n1 n2 : Node) (nm : String),
      resolvedName n1 = some nm → resolvedName n2 = some nm → nm ≠ "" →
      productsLoop [] [n1, n2] = [mkCard n1]) := by
  refine ⟨?_, ?_, ?_, ?_⟩
  · intro seen n rest nm h hne hc
    have hm : nm ∈ seen := by simpa using hc
    simp [productsLoop, h, hne, hm]
  · intro seen n rest nm h hne hc
    have hm : nm ∉ seen := by simpa using hc
    simp [productsLoop, h, hne, hm]
  · intro seen n rest h
    rcases h with h | h <;> simp [productsLoop, h]
  · intro n1 n2 nm h1 h2 hne
    simp [productsLoop, h1, h2, hne]

/-- C3 (witness): two candidates both resolving to the name `"X"`; only
the first card is emitted. -/
theorem c3_witness :
    productsLoop []
      [Node.elem "div" [("data-product", ""), ("data-name", "X"), ("data-price", "₺9")] .nil,
        Node.elem "div" [("data-product", ""), ("data-name", "X"), ("data-price", "₺5")] .nil] =
      [mkCard (Node.elem "div" [("data-product", ""), ("data-name", "X"), ("data-price", "₺9")] .nil)] :=
  c3_dedup_by_name.2.2.2
    (Node.elem "div" [("data-product", ""), ("data-name", "X"), ("data-price", "₺9")] .nil)
    (Node.elem "div" [("data-product", ""), ("data-name", "X"), ("data-price", "₺5")] .nil)
    "X" rfl rfl (by decide)

def c4Node : Node := .elem "div" [("data-product", ""), ("data-name", "W")] .nil

def c4Doc : NodeList := nl [c4Node]

def c4Res : ScrapeResult := ScrapeResult.mk "u" none .null [] [mkCard c4Node] [] none

/-- C4: `scrape` fails with the typed `ScraperError` exactly when chart
extraction succeeded with zero datasets and product extraction found
nothing; every successfully returned `ScrapeResult` has a non-empty
`datasets` or a non-empty `products` (and on failure no result exists at
all, the return type being `Except`). -/
theorem c4_empty_error_iff :
    ∀ (url : String) (doc : NodeList),
      (scrape url doc = .error (.scraperError emptyMsg) ↔
        (∃ t r, extractChartData doc = .ok (t, [], r)) ∧ extractProducts doc = []) ∧
      (∀ res, scrape url doc = .ok res → res.datasets ≠ [] ∨ res.products ≠ []) := by
  intro url doc
  constructor
  · unfold scrape
    rcases hE : extractChartData doc with e | ⟨t, ds, r⟩
    · simp
    · dsimp only
      split
      · next hcond =>
        simp only [Bool.and_eq_true, List.isEmpty_iff] at hcond
        obtain ⟨h1, h2⟩ := hcond
        subst h1
        simp [h2]
      · next hcond =>
        simp only [Bool.and_eq_true, List.isEmpty_iff] at hcond
        constructor
        · intro h; simp at h
        · rintro ⟨⟨t', r', hE'⟩, hp⟩
          simp only [Except.ok.injEq, Prod.mk.injEq] at hE'
          exact absurd ⟨hE'.2.1, hp⟩ hcond
  · intro res h
    obtain ⟨t, r, hE, _, hprod⟩ := scrape_ok_inv h
    by_contra hne
    push_neg at hne
    obtain ⟨h1, h2⟩ := hne
    unfold scrape at h
    rw [hE] at h
    dsimp only at h
    rw [h1, ← hprod, h2] at h
    simp at h

/-- C4 (witness): a document with one product candidate and no chart
yields a result with non-empty products. -/
theorem c4_witness : c4Res.datasets ≠ [] ∨ c4Res.products ≠ [] :=
  (c4_empty_error_iff "u" c4Doc).2 c4Res rfl

/-- C5: evidence for the code bug — a script whose parsed mapping holds a
truthy non-mapping under `"chart"` is accepted by the shape dispatch, and
`normalise_chart` then calls `.get` on it, so the whole extraction call
raises `AttributeError` instead of skipping the node: the call fails
through exception propagation, not through the emptiness check. -/
theorem c5_chart_nonmapping_crash :
    tryParseJson "\x7b\"chart\": \"hello\"\x7d" =
      some (Json.obj (.cons "chart" (.str "hello") .nil)) ∧
    chartShape (Json.obj (.cons "chart" (.str "hello") .nil)) = some (.str "hello") ∧
    normaliseChart (.str "hello") = .error .attributeError ∧
    extractChartData crashDoc = .error .attributeError ∧
    scrape "u" crashDoc = .error (.pyError .attributeError) ∧
    ∀ msg, scrape "u" crashDoc ≠ .error (.scraperError msg) := by
  refine ⟨rfl, rfl, rfl, rfl, rfl, ?_⟩
  intro msg h
  rw [show scrape "u" crashDoc = .error (.pyError .attributeError) from rfl] at h
  simp at h

/-- C6: `parse_price` returns both outputs absent when the currency
pattern finds no match; on a match it returns the matched currency token
together with the result of parsing the numeric run normalised by
stripping every `.` and then turning `,` into `.` — the same normalisation
whatever the currency token was, with an absent amount when that parse
still fails; `parse_price("₺1.234,56")` is `(1234.56, "₺")` and
`parse_price("no digits here")` is `(None, None)`. -/
theorem c6_parse_price :
    (∀ t : String, regexSearch t.data = none → parsePrice t = (none, none)) ∧
    (∀ (t cur v : String), regexSearch t.data = some (cur, v) →
      parsePrice t = (pyFloatStr (normaliseValue v), some cur)) ∧
    parsePrice "₺1.234,56" = (some (123456 / 100 : ℚ), some "₺") ∧
    parsePrice "no digits here" = (none, none) := by
  refine ⟨?_, ?_, ?_, rfl⟩
  · intro t h
    simp [parsePrice, h]
  · intro t cur v h
    unfold parsePrice
    rw [h]
    cases hf : pyFloatStr (normaliseValue v) <;> simp [hf]
  · rfl

/-- C6 (witness): no currency token adjacent to a numeric run occurs in
`"hello"`. -/
theorem c6_witness : parsePrice "hello" = (none, none) :=
  c6_parse_price.1 "hello" rfl

def c7NodeA : Node := .elem "div" [("class", "product-card"), ("data-name", "A")] .nil

def c7NodeB : Node := .elem "div" [("data-product", ""), ("data-name", "B")] .nil

def c7Doc : NodeList := nl [c7NodeA, c7NodeB]

/-- C7 (counterexample): the first document node matches only the
`.product-card` selector and the second only the `[data-product]`
selector, which comes first in the selector list; the claim predicts the
`[data-product]` card (name `"B"`) first, but `select` returns document
order, so the `.product-card` card (name `"A"`) comes first. -/
theorem c7_counterexample :
    hasAttrB c7NodeA "data-product" = false ∧ hasClass c7NodeA "product-card" = true ∧
    hasAttrB c7NodeB "data-product" = true ∧ hasClass c7NodeB "product-card" = false ∧
    (extractProducts c7Doc).map ProductCard.name = [some "A", some "B"] ∧
    (extractProducts c7Doc).map ProductCard.name ≠ [some "B", some "A"] :=
  ⟨rfl, rfl, rfl, rfl, rfl, by decide⟩

/-- C7 (amended): CSS selection walks the whole document in document order
testing each node against the selector group, so the product candidates —
and hence the cards emitted for them — appear in document order regardless
of which of the four selectors matched; selector order never overrides
document order. -/
theorem c7_document_order :
    ∀ doc : NodeList,
      productCandidates doc = (elemsL doc).filter prodMatch ∧
      extractProducts doc = productsLoop [] ((elemsL doc).filter prodMatch) := by
  intro doc
  have h := selectL_eq_filter prodMatch doc
  refine ⟨h, ?_⟩
  unfold extractProducts
  rw [show productCandidates doc = (elemsL doc).filter prodMatch from h]

/-- C8: whenever the scanner returns a raw payload, that payload is the
`json.dumps` serialisation of the chart-shaped sub-value extracted from
one of the scanned scripts; on the concrete document the serialisation
differs both from the script's own text and from a serialisation of the
outer JSON envelope. -/
theorem c8_raw_from_subvalue :
    (∀ (ss : List Node) (t : Json) (ds : List ChartDataset) (raw : String),
      chartLoop ss = .ok (t, ds, some raw) →
      ∃ s ∈ ss, ∃ parsed cp, tryParseJson (getText s) = some parsed ∧
        chartShape parsed = some cp ∧ normaliseChart cp = .ok (t, ds) ∧
        raw = jsonDumps cp) ∧
    extractChartData c8Doc = .ok (.null, [c8DS], some c8Raw) ∧
    tryParseJson (getText c8Script) = some c8Envelope ∧
    chartShape c8Envelope = some c8Chart ∧
    c8Raw = jsonDumps c8Chart ∧
    c8Raw ≠ getText c8Script ∧
    c8Raw ≠ jsonDumps c8Envelope := by
  refine ⟨?_, rfl, rfl, rfl, rfl, by decide, by decide⟩
  intro ss t ds raw h
  rcases chartLoop_cases h with ⟨-, -, hr⟩ | ⟨s, hmem, raw0, hstep, hr⟩
  · simp at hr
  · have hraw : raw = raw0 := Option.some.inj hr
    subst hraw
    obtain ⟨parsed, cp, hparse, -, hcp, -, hnorm, hdump, -⟩ := scriptStep_some_inv hstep
    exact ⟨s, hmem, parsed, cp, hparse, hcp, hnorm, hdump⟩

/-- C8 (witness): the general statement applied to the concrete one-script
document. -/
theorem c8_witness :
    ∃ s ∈ [c8Script], ∃ parsed cp, tryParseJson (getText s) = some parsed ∧
      chartShape parsed = some cp ∧ normaliseChart cp = .ok (Json.null, [c8DS]) ∧
      c8Raw = jsonDumps cp :=
  c8_raw_from_subvalue.1 [c8Script] .null [c8DS] c8Raw rfl

def c9EmptyImg : Node := .elem "img" [("src", "")] .nil

/-- C9 (counterexample): an image node that does carry a source attribute
— with empty value — is dropped by the falsy `if not src` check, so the
collection does not contain every image carrying a source attribute. -/
theorem c9_counterexample :
    hasAttrB c9EmptyImg "src" = true ∧ tagOf c9EmptyImg = "img" ∧
    extractImages (nl [c9EmptyImg]) = [] :=
  ⟨rfl, rfl, rfl⟩

def c9GrandDoc : NodeList :=
  nl [Node.elem "div" [("data-product", "1")]
    (.cons (.elem "span" [] (.cons (.elem "img" [("src", "b.png")] .nil) .nil)) .nil)]

/-- C9 (amended): the image collection is exactly the document-order
filter-map over every image paired with its immediate parent — keep the
images with a non-empty source attribute as (source, alt, context)
triples, context `"product"` iff that immediate parent carries the
`data-product` attribute; in particular an image under an unmarked parent
gets no context even when its grandparent is marked. -/
theorem c9_images_first_parent :
    (∀ doc : NodeList, extractImages doc = (imgPairs doc).filterMap imageSpecEntry) ∧
    extractImages c9GrandDoc = [("b.png", none, none)] :=
  ⟨fun doc => imagesLoop_eq_filterMap (imgPairs doc), rfl⟩

def c10Res : ScrapeResult := ScrapeResult.mk "u" none .null [c8DS] [] [] (some c8Raw)

/-- C10: in every successfully returned ScrapeResult the raw payload is
present exactly when the datasets sequence is non-empty. -/
theorem c10_raw_iff_datasets :
    ∀ (url : String) (doc : NodeList) (res : ScrapeResult),
      scrape url doc = .ok res → (res.raw_payload.isSome = true ↔ res.datasets ≠ []) := by
  intro url doc res h
  obtain ⟨t, r, hE, hraw, -⟩ := scrape_ok_inv h
  rw [hraw]
  exact chartLoop_raw_iff hE

/-- C10 (witness): applied to the concrete chart-only document. -/
theorem c10_witness : c10Res.raw_payload.isSome = true ↔ c10Res.datasets ≠ [] :=
  c10_raw_iff_datasets "u" c8Doc c10Res rfl

end Scraper
